
import Mathlib

/-
  Verification of the 2D rigid-body physics subsystem (`physics_engine.py`).

  Shallow embedding: Python floats are modelled as real numbers, `math.sqrt`
  as `Real.sqrt`, the mutable body dict as a list of bodies keyed by
  `element_id` (insertion order preserved, as in a Python dict), and each
  mutating method as a pure state-transformer.  The rendering side effects
  (`execute_js`, `_update_svg_positions`) change no simulation state and are
  omitted; `update`'s wall-clock path (`dt=None`) is likewise outside the
  model, which takes `dt` explicitly.
-/

noncomputable section

namespace PhysicsSpec

abbrev Vec2 := ℝ × ℝ

/-- `PhysicsBody.__init__` together with the attribute defaults set there. -/
structure PhysicsBody where
  element_id : String
  mass : ℝ := 1
  position : Vec2 := (0, 0)
  velocity : Vec2 := (0, 0)
  acceleration : Vec2 := (0, 0)
  forces : Vec2 := (0, 0)
  restitution : ℝ := 0.8
  friction : ℝ := 0.1
  fixed : Bool := false
  shape_type : String := "circle"
  radius : ℝ := 10
  width : ℝ := 20
  height : ℝ := 20
  in_collision : Bool := false

instance : Inhabited PhysicsBody := ⟨{ element_id := "" }⟩

/-- Python `math.copysign a b`: `|a|` carrying the sign of `b`
(reals have no negative zero, so `b = 0` gives `|a|`). -/
def copysign (a b : ℝ) : ℝ := if b < 0 then -|a| else |a|

/-- `PhysicsBody.apply_force`. -/
def apply_force (b : PhysicsBody) (force : Vec2) : PhysicsBody :=
  if b.fixed then b
  else { b with forces := (b.forces.1 + force.1, b.forces.2 + force.2) }

/-- `PhysicsBody.update(dt)`: semi-implicit Euler step with the
axis-wise friction decay, then the force accumulator reset. -/
def bodyUpdate (b : PhysicsBody) (dt : ℝ) : PhysicsBody :=
  if b.fixed then b
  else
    let ax := b.forces.1 / b.mass
    let ay := b.forces.2 / b.mass
    let vx0 := b.velocity.1 + ax * dt
    let vy0 := b.velocity.2 + ay * dt
    let vx1 := if |vx0| > 0.01 then
        vx0 + (-(copysign (b.friction * b.mass * 9.8) vx0) / b.mass) * dt
      else 0
    let vy1 := if |vy0| > 0.01 then
        vy0 + (-(copysign (b.friction * b.mass * 9.8) vy0) / b.mass) * dt
      else 0
    { b with
      acceleration := (ax, ay)
      velocity := (vx1, vy1)
      position := (b.position.1 + vx1 * dt, b.position.2 + vy1 * dt)
      forces := (0, 0) }

/-- `PhysicsBody.distance_to`. -/
def distance_to (b o : PhysicsBody) : ℝ :=
  Real.sqrt ((b.position.1 - o.position.1) * (b.position.1 - o.position.1) +
             (b.position.2 - o.position.2) * (b.position.2 - o.position.2))

/-- The circle–rectangle branch of `check_collision` (closest-point test),
with `c` the circle and `r` the rectangle. -/
def circleRectCollide (c r : PhysicsBody) : Bool :=
  let closest_x := max r.position.1 (min c.position.1 (r.position.1 + r.width))
  let closest_y := max r.position.2 (min c.position.2 (r.position.2 + r.height))
  let dx := c.position.1 - closest_x
  let dy := c.position.2 - closest_y
  decide (dx * dx + dy * dy < c.radius * c.radius)

/-- `PhysicsBody.check_collision`: dispatch on the pair of shape tags.
The Python `rectangle`/`circle` branch calls `other.check_collision(self)`,
which lands in the circle–rectangle branch; that one recursive step is
inlined here. -/
def check_collision (b o : PhysicsBody) : Bool :=
  if b.shape_type = "circle" ∧ o.shape_type = "circle" then
    decide (distance_to b o < b.radius + o.radius)
  else if b.shape_type = "rectangle" ∧ o.shape_type = "rectangle" then
    decide (¬ (b.position.1 + b.width < o.position.1 ∨
               b.position.1 > o.position.1 + o.width ∨
               b.position.2 + b.height < o.position.2 ∨
               b.position.2 > o.position.2 + o.height))
  else if b.shape_type = "circle" ∧ o.shape_type = "rectangle" then
    circleRectCollide b o
  else if o.shape_type = "circle" ∧ b.shape_type = "rectangle" then
    circleRectCollide o b
  else
    false

/-- `PhysicsBody.resolve_collision`, returning the updated `(self, other)`
pair instead of mutating in place. -/
def resolve_collision (b o : PhysicsBody) : PhysicsBody × PhysicsBody :=
  if b.fixed && o.fixed then (b, o)
  else
    let rvx := b.velocity.1 - o.velocity.1
    let rvy := b.velocity.2 - o.velocity.2
    let nx0 := o.position.1 - b.position.1
    let ny0 := o.position.2 - b.position.2
    let len := Real.sqrt (nx0 * nx0 + ny0 * ny0)
    let n : Vec2 := if len = 0 then (0, 1) else (nx0 / len, ny0 / len)
    let rvn := rvx * n.1 + rvy * n.2
    if rvn > 0 then (b, o)
    else
      let e := min b.restitution o.restitution
      let j := (-(1 + e) * rvn) / (1 / b.mass + 1 / o.mass)
      let impulse : Vec2 := (j * n.1, j * n.2)
      let b1 := if b.fixed then b else
        { b with velocity := (b.velocity.1 + impulse.1 / b.mass,
                              b.velocity.2 + impulse.2 / b.mass) }
      let o1 := if o.fixed then o else
        { o with velocity := (o.velocity.1 - impulse.1 / o.mass,
                              o.velocity.2 - impulse.2 / o.mass) }
      let sf : ℝ := 0.01
      if !b.fixed && !o.fixed then
        ({ b1 with position := (b1.position.1 - n.1 * sf, b1.position.2 - n.2 * sf) },
         { o1 with position := (o1.position.1 + n.1 * sf, o1.position.2 + n.2 * sf) })
      else if !b.fixed then
        ({ b1 with position := (b1.position.1 - n.1 * sf * 2, b1.position.2 - n.2 * sf * 2) }, o1)
      else if !o.fixed then
        (b1, { o1 with position := (o1.position.1 + n.1 * sf * 2, o1.position.2 + n.2 * sf * 2) })
      else (b1, o1)

/-- `PhysicsEngine` state: the body registry (a Python dict keyed by
`element_id`, modelled as an insertion-ordered list), gravity and bounds.
`running`/`last_time` drive only the omitted wall-clock scheduling. -/
structure PhysicsEngine where
  bodies : List PhysicsBody
  gravity : Vec2 := (0, 9.8)
  bounds : ℝ × ℝ × ℝ × ℝ := (0, 0, 800, 600)

/-- Dict lookup `self.bodies.get(id)`. -/
def lookupBody (e : PhysicsEngine) (id : String) : Option PhysicsBody :=
  e.bodies.find? (fun b => b.element_id == id)

/-- Dict assignment `self.bodies[id] = b` for an id already present
(the mutation the spring closure performs on a looked-up body). -/
def setBody (e : PhysicsEngine) (id : String) (b : PhysicsBody) : PhysicsEngine :=
  { e with bodies := e.bodies.map (fun x => if x.element_id == id then b else x) }

/-- The boundary-collision block of `PhysicsEngine.update`: the four
sequential clamp-and-bounce tests for one body.  Note the source applies
this to every body, with no `fixed` guard. -/
def clampBody (bounds : ℝ × ℝ × ℝ × ℝ) (b0 : PhysicsBody) : PhysicsBody :=
  let min_x := bounds.1
  let min_y := bounds.2.1
  let max_x := bounds.2.2.1
  let max_y := bounds.2.2.2
  if b0.shape_type = "circle" then
    let b := if b0.position.2 + b0.radius > max_y then
        { b0 with position := (b0.position.1, max_y - b0.radius),
                  velocity := (b0.velocity.1, -b0.velocity.2 * b0.restitution) }
      else b0
    let b2 := if b.position.2 - b.radius < min_y then
        { b with position := (b.position.1, min_y + b.radius),
                 velocity := (b.velocity.1, -b.velocity.2 * b.restitution) }
      else b
    let b3 := if b2.position.1 + b2.radius > max_x then
        { b2 with position := (max_x - b2.radius, b2.position.2),
                  velocity := (-b2.velocity.1 * b2.restitution, b2.velocity.2) }
      else b2
    if b3.position.1 - b3.radius < min_x then
      { b3 with position := (min_x + b3.radius, b3.position.2),
                velocity := (-b3.velocity.1 * b3.restitution, b3.velocity.2) }
    else b3
  else if b0.shape_type = "rectangle" then
    let b := if b0.position.2 + b0.height > max_y then
        { b0 with position := (b0.position.1, max_y - b0.height),
                  velocity := (b0.velocity.1, -b0.velocity.2 * b0.restitution) }
      else b0
    let b2 := if b.position.2 < min_y then
        { b with position := (b.position.1, min_y),
                 velocity := (b.velocity.1, -b.velocity.2 * b.restitution) }
      else b
    let b3 := if b2.position.1 + b2.width > max_x then
        { b2 with position := (max_x - b2.width, b2.position.2),
                  velocity := (-b2.velocity.1 * b2.restitution, b2.velocity.2) }
      else b2
    if b3.position.1 < min_x then
      { b3 with position := (min_x, b3.position.2),
                velocity := (-b3.velocity.1 * b3.restitution, b3.velocity.2) }
    else b3
  else b0

/-- One step of the pairwise collision loop body for indices `i < j`. -/
def resolvePair (bs : List PhysicsBody) (i j : Nat) : List PhysicsBody :=
  let a := bs.getD i default
  let b := bs.getD j default
  if check_collision a b then
    let p := resolve_collision a b
    (bs.set i { p.1 with in_collision := true }).set j { p.2 with in_collision := true }
  else
    (bs.set i { a with in_collision := false }).set j { b with in_collision := false }

/-- The index pairs visited by `for i in range(n): for j in range(i+1, n)`,
in iteration order. -/
def pairIndices (n : Nat) : List (Nat × Nat) :=
  (List.range n).flatMap (fun i => ((List.range n).filter (fun j => i < j)).map (fun j => (i, j)))

/-- The pairwise collision-detection/resolution phase of `PhysicsEngine.update`. -/
def collisionPhase (bs : List PhysicsBody) : List PhysicsBody :=
  (pairIndices bs.length).foldl (fun l ij => resolvePair l ij.1 ij.2) bs

/-- `PhysicsEngine.update(dt)` with `dt` supplied: gravity on non-fixed
bodies, per-body integration plus boundary clamping, then the pairwise
collision loop.  The final `_update_svg_positions` render emission mutates
no simulation state. -/
def update (e : PhysicsEngine) (dt : ℝ) : PhysicsEngine :=
  let bs1 := e.bodies.map (fun b =>
    if b.fixed then b else apply_force b (e.gravity.1 * b.mass, e.gravity.2 * b.mass))
  let bs2 := bs1.map (fun b => clampBody e.bounds (bodyUpdate b dt))
  { e with bodies := collisionPhase bs2 }

/-- The per-body effect of `PhysicsEngine.apply_explosion_force`. -/
def explosionBody (position : Vec2) (force radius : ℝ) (b : PhysicsBody) : PhysicsBody :=
  if b.fixed then b
  else
    let dx := b.position.1 - position.1
    let dy := b.position.2 - position.2
    let distance := Real.sqrt (dx * dx + dy * dy)
    if distance < radius then
      let direction : Vec2 := if distance > 0 then (dx / distance, dy / distance) else (0, -1)
      let magnitude := force * (1 - distance / radius)
      apply_force b (direction.1 * magnitude, direction.2 * magnitude)
    else b

/-- `PhysicsEngine.apply_explosion_force`. -/
def apply_explosion_force (e : PhysicsEngine) (position : Vec2) (force radius : ℝ) :
    PhysicsEngine :=
  { e with bodies := e.bodies.map (explosionBody position force radius) }

/-- The data captured by the closure `create_spring` returns. -/
structure SpringOp where
  body_a_id : String
  body_b_id : String
  stiffness : ℝ
  rest_length : ℝ
  damping : ℝ

/-- `PhysicsEngine.create_spring`: `None` when either id is absent from the
registry at creation time, otherwise the `apply_spring_force` closure,
represented by its captured data. -/
def create_spring (e : PhysicsEngine) (body_a_id body_b_id : String)
    (stiffness rest_length damping : ℝ) : Option SpringOp :=
  if (lookupBody e body_a_id).isNone ∨ (lookupBody e body_b_id).isNone then none
  else some ⟨body_a_id, body_b_id, stiffness, rest_length, damping⟩

/-- Invoking the `apply_spring_force` closure against the current engine
state: re-look up both bodies (no-op if either is gone), Hookean force plus
projected damping, equal and opposite application.  The spring-line drawing
is a render-only side effect. -/
def apply_spring_force (sp : SpringOp) (e : PhysicsEngine) : PhysicsEngine :=
  match lookupBody e sp.body_a_id, lookupBody e sp.body_b_id with
  | some body_a, some body_b =>
    let dx := body_b.position.1 - body_a.position.1
    let dy := body_b.position.2 - body_a.position.2
    let distance := Real.sqrt (dx * dx + dy * dy)
    if distance = 0 then e
    else
      let displacement := distance - sp.rest_length
      let force_magnitude := sp.stiffness * displacement
      let direction : Vec2 := (dx / distance, dy / distance)
      let dvx := body_b.velocity.1 - body_a.velocity.1
      let dvy := body_b.velocity.2 - body_a.velocity.2
      let damping_force := -sp.damping * (dvx * direction.1 + dvy * direction.2)
      let total := force_magnitude + damping_force
      let force_a : Vec2 := (direction.1 * total, direction.2 * total)
      setBody (setBody e sp.body_a_id (apply_force body_a force_a))
        sp.body_b_id (apply_force body_b (-force_a.1, -force_a.2))
  | _, _ => e

/-- Squared magnitude of the relative velocity of two bodies. -/
def relSpeedSq (b o : PhysicsBody) : ℝ :=
  (b.velocity.1 - o.velocity.1) ^ 2 + (b.velocity.2 - o.velocity.2) ^ 2

/-- Magnitude of the relative velocity of two bodies. -/
def relSpeed (b o : PhysicsBody) : ℝ := Real.sqrt (relSpeedSq b o)

/-- Total linear momentum of a pair of bodies, componentwise. -/
def momentum2 (b o : PhysicsBody) : Vec2 :=
  (b.mass * b.velocity.1 + o.mass * o.velocity.1,
   b.mass * b.velocity.2 + o.mass * o.velocity.2)

def c6a : PhysicsBody := { element_id := "c6a", position := (0, 0), radius := 10 }

def c6b : PhysicsBody := { element_id := "c6b", position := (3, 4), radius := 2 }

/-- The impulse scalar `j` of `resolve_collision` for a given unit normal. -/
def jscal (b o : PhysicsBody) (n1 n2 : ℝ) : ℝ :=
  (-(1 + min b.restitution o.restitution) *
      ((b.velocity.1 - o.velocity.1) * n1 + (b.velocity.2 - o.velocity.2) * n2)) /
    (1 / b.mass + 1 / o.mass)

/-- Witness bodies for C9: two unit-mass circles approaching head-on. -/
def c9a : PhysicsBody :=
  { element_id := "c9a", mass := 1, position := (0, 0), velocity := (1, 0) }

def c9b : PhysicsBody :=
  { element_id := "c9b", mass := 1, position := (2, 0), velocity := (-1, 0) }

/-- Witness bodies for C3: equal-mass elastic circles. -/
def c3a : PhysicsBody :=
  { element_id := "c3a", mass := 1, position := (0, 0), velocity := (2, 0), restitution := 1 }

def c3b : PhysicsBody :=
  { element_id := "c3b", mass := 1, position := (3, 0), velocity := (-2, 0), restitution := 1 }

def c4body : PhysicsBody :=
  { element_id := "c4", mass := 1, position := (100, 100), velocity := (0, 0),
    restitution := 0.8, friction := 0, shape_type := "circle", radius := 20 }

def c4engine : PhysicsEngine :=
  { bodies := [c4body], gravity := (0, 98), bounds := (0, 0, 800, 600) }

def c1body : PhysicsBody :=
  { element_id := "c1", mass := 1, position := (100, 590), velocity := (0, 0),
    restitution := 0.8, friction := 0.1, fixed := true, shape_type := "circle", radius := 20 }

def c1engine : PhysicsEngine :=
  { bodies := [c1body], gravity := (0, 98), bounds := (0, 0, 800, 600) }

def c5body : PhysicsBody :=
  { element_id := "c5", mass := 1, position := (400, 250), velocity := (0, 100),
    restitution := 0.8, friction := 0, shape_type := "circle", radius := 400 }

def c5engine : PhysicsEngine :=
  { bodies := [c5body], gravity := (0, 0), bounds := (0, 0, 800, 600) }

def w5body : PhysicsBody :=
  { element_id := "w5", mass := 1, position := (100, 570), velocity := (0, 100),
    restitution := 0.8, friction := 0, shape_type := "circle", radius := 20 }

def c2a : PhysicsBody := { element_id := "a", position := (0, 0) }

def c2b : PhysicsBody := { element_id := "b", position := (200, 0) }

def c2engine : PhysicsEngine := { bodies := [c2a, c2b] }

def c2spring : SpringOp := ⟨"a", "b", 0.5, 100, 0⟩

/-- Distance from the explosion center to a body's position. -/
def explosionDist (center : Vec2) (b : PhysicsBody) : ℝ :=
  Real.sqrt ((b.position.1 - center.1) * (b.position.1 - center.1) +
             (b.position.2 - center.2) * (b.position.2 - center.2))

/-- The normalized away-from-center direction used by the explosion force,
straight up (`(0, -1)`) at the center itself. -/
def explosionDirVec (center : Vec2) (b : PhysicsBody) : Vec2 :=
  if explosionDist center b > 0 then
    ((b.position.1 - center.1) / explosionDist center b,
     (b.position.2 - center.2) / explosionDist center b)
  else (0, -1)

def c7body : PhysicsBody := { element_id := "c7", position := (30, 40) }

def c7engine : PhysicsEngine := { bodies := [c7body] }

def c8engine : PhysicsEngine := { bodies := [] }

def c8spring : SpringOp := ⟨"x", "y", 1, 1, 1⟩

/-! ### Helper lemmas -/

lemma distance_to_comm (a b : PhysicsBody) : distance_to a b = distance_to b a := by
  unfold distance_to
  congr 1
  ring

/-! ### C6: circle overlap law -/

/-- Claim C6: for every pair of circle bodies, `check_collision` returns true
iff the Euclidean distance between their centers is strictly less than the sum
of their radii; in particular it returns false at exact tangency. -/
theorem C6_circle_overlap_law (a b : PhysicsBody)
    (ha : a.shape_type = "circle") (hb : b.shape_type = "circle") :
    (check_collision a b = true ↔ distance_to a b < a.radius + b.radius) ∧
    (distance_to a b = a.radius + b.radius → check_collision a b = false) := by
  unfold check_collision
  rw [if_pos ⟨ha, hb⟩]
  constructor
  · exact decide_eq_true_iff
  · intro h
    rw [h]
    simp

/-- Witness for C6 at two concrete circles. -/
theorem C6_circle_overlap_law_witness :
    (check_collision c6a c6b = true ↔ distance_to c6a c6b < c6a.radius + c6b.radius) ∧
    (distance_to c6a c6b = c6a.radius + c6b.radius → check_collision c6a c6b = false) :=
  C6_circle_overlap_law c6a c6b rfl rfl

/-! ### C10: symmetry of collision detection -/

/-- Claim C10: `check_collision` is symmetric for every combination of shape
kinds (circle, rectangle, or unsupported). -/
theorem C10_check_collision_symm (a b : PhysicsBody) :
    check_collision a b = check_collision b a := by
  have hcr : ("circle" : String) ≠ "rectangle" := by decide
  unfold check_collision
  by_cases h1 : a.shape_type = "circle" <;>
    by_cases h2 : b.shape_type = "circle" <;>
    by_cases h3 : a.shape_type = "rectangle" <;>
    by_cases h4 : b.shape_type = "rectangle" <;>
    simp_all [distance_to_comm a b, add_comm a.radius b.radius]
  · simp [Bool.and_comm, Bool.and_left_comm, Bool.and_assoc]

/-! ### Characterization of `resolve_collision` on non-fixed pairs -/

lemma resolve_collision_spec (b o : PhysicsBody) (hfb : b.fixed = false)
    (hfo : o.fixed = false) :
    ((resolve_collision b o).1.mass = b.mass ∧ (resolve_collision b o).2.mass = o.mass) ∧
    (((resolve_collision b o).1.velocity = b.velocity ∧
        (resolve_collision b o).2.velocity = o.velocity) ∨
      ∃ n1 n2 : ℝ, n1 * n1 + n2 * n2 = 1 ∧
        (resolve_collision b o).1.velocity =
          (b.velocity.1 + jscal b o n1 n2 * n1 / b.mass,
           b.velocity.2 + jscal b o n1 n2 * n2 / b.mass) ∧
        (resolve_collision b o).2.velocity =
          (o.velocity.1 - jscal b o n1 n2 * n1 / o.mass,
           o.velocity.2 - jscal b o n1 n2 * n2 / o.mass)) := by
  unfold resolve_collision
  rw [hfb, hfo]
  simp only [Bool.and_self, Bool.false_eq_true, if_false, Bool.not_false, Bool.and_true,
    if_true, Bool.true_and, ite_true, ite_false]
  split_ifs with hlen hrvn hrvn
  · exact ⟨⟨rfl, rfl⟩, Or.inl ⟨rfl, rfl⟩⟩
  · refine ⟨⟨rfl, rfl⟩, Or.inr ⟨0, 1, by norm_num, ?_, ?_⟩⟩ <;> simp [jscal, hlen]
  · exact ⟨⟨rfl, rfl⟩, Or.inl ⟨rfl, rfl⟩⟩
  · have hsq : Real.sqrt ((o.position.1 - b.position.1) * (o.position.1 - b.position.1) +
          (o.position.2 - b.position.2) * (o.position.2 - b.position.2)) *
        Real.sqrt ((o.position.1 - b.position.1) * (o.position.1 - b.position.1) +
          (o.position.2 - b.position.2) * (o.position.2 - b.position.2)) =
        (o.position.1 - b.position.1) * (o.position.1 - b.position.1) +
          (o.position.2 - b.position.2) * (o.position.2 - b.position.2) :=
      Real.mul_self_sqrt (add_nonneg (mul_self_nonneg _) (mul_self_nonneg _))
    refine ⟨⟨rfl, rfl⟩, Or.inr ⟨(o.position.1 - b.position.1) /
        Real.sqrt ((o.position.1 - b.position.1) * (o.position.1 - b.position.1) +
          (o.position.2 - b.position.2) * (o.position.2 - b.position.2)),
      (o.position.2 - b.position.2) /
        Real.sqrt ((o.position.1 - b.position.1) * (o.position.1 - b.position.1) +
          (o.position.2 - b.position.2) * (o.position.2 - b.position.2)),
      ?_, ?_, ?_⟩⟩
    · field_simp
      linear_combination (-1 : ℝ) * hsq
    · simp [jscal]
    · simp [jscal]

/-! ### C9: momentum conservation -/

/-- Claim C9: for two non-fixed bodies of positive mass, `resolve_collision`
conserves total linear momentum componentwise. -/
theorem C9_momentum_conservation (a b : PhysicsBody) (hfa : a.fixed = false)
    (hfb : b.fixed = false) (hma : 0 < a.mass) (hmb : 0 < b.mass) :
    momentum2 (resolve_collision a b).1 (resolve_collision a b).2 = momentum2 a b := by
  obtain ⟨⟨hm1, hm2⟩, hv⟩ := resolve_collision_spec a b hfa hfb
  unfold momentum2
  rw [hm1, hm2]
  rcases hv with ⟨hv1, hv2⟩ | ⟨n1, n2, hn, hv1, hv2⟩
  · rw [hv1, hv2]
  · rw [hv1, hv2]
    have ha' : a.mass ≠ 0 := hma.ne'
    have hb' : b.mass ≠ 0 := hmb.ne'
    have hs : a.mass + b.mass ≠ 0 := by positivity
    simp only [jscal, Prod.mk.injEq]
    constructor <;> (field_simp; ring)

/-- Witness for C9 at a concrete colliding pair. -/
theorem C9_momentum_conservation_witness :
    momentum2 (resolve_collision c9a c9b).1 (resolve_collision c9a c9b).2 = momentum2 c9a c9b :=
  C9_momentum_conservation c9a c9b rfl rfl (by norm_num [c9a]) (by norm_num [c9b])

/-! ### C3: elastic collision preserves relative speed -/

/-- Claim C3: for equal-mass, non-fixed circle bodies with restitution 1, the
magnitude of the relative velocity is unchanged by `resolve_collision`, in
both the skip branch and the impulse branch. -/
theorem C3_elastic_relative_speed (a b : PhysicsBody) (hfa : a.fixed = false)
    (hfb : b.fixed = false) (hm : a.mass = b.mass) (hmpos : 0 < b.mass)
    (hra : a.restitution = 1) (hrb : b.restitution = 1)
    (hsa : a.shape_type = "circle") (hsb : b.shape_type = "circle") :
    relSpeed (resolve_collision a b).1 (resolve_collision a b).2 = relSpeed a b := by
  obtain ⟨-, hv⟩ := resolve_collision_spec a b hfa hfb
  unfold relSpeed relSpeedSq
  congr 1
  rcases hv with ⟨hv1, hv2⟩ | ⟨n1, n2, hn, hv1, hv2⟩
  · rw [hv1, hv2]
  · rw [hv1, hv2]
    have hb' : b.mass ≠ 0 := hmpos.ne'
    have hj : jscal a b n1 n2 =
        -((a.velocity.1 - b.velocity.1) * n1 + (a.velocity.2 - b.velocity.2) * n2) * b.mass := by
      simp only [jscal, hra, hrb, hm, min_self]
      field_simp
      ring
    rw [hj, hm]
    field_simp
    linear_combination (4 * ((a.velocity.1 - b.velocity.1) * n1 +
      (a.velocity.2 - b.velocity.2) * n2) ^ 2 * b.mass ^ 2) * hn

/-- Witness for C3 at a concrete elastic head-on pair. -/
theorem C3_elastic_relative_speed_witness :
    relSpeed (resolve_collision c3a c3b).1 (resolve_collision c3a c3b).2 = relSpeed c3a c3b :=
  C3_elastic_relative_speed c3a c3b rfl rfl rfl (by norm_num [c3b]) rfl rfl rfl rfl

/-! ### Shape/material preservation lemmas -/

@[simp] lemma apply_force_radius (b : PhysicsBody) (f : Vec2) :
    (apply_force b f).radius = b.radius := by
  unfold apply_force; split_ifs <;> rfl

@[simp] lemma apply_force_shape (b : PhysicsBody) (f : Vec2) :
    (apply_force b f).shape_type = b.shape_type := by
  unfold apply_force; split_ifs <;> rfl

@[simp] lemma apply_force_restitution (b : PhysicsBody) (f : Vec2) :
    (apply_force b f).restitution = b.restitution := by
  unfold apply_force; split_ifs <;> rfl

@[simp] lemma bodyUpdate_radius (b : PhysicsBody) (dt : ℝ) :
    (bodyUpdate b dt).radius = b.radius := by
  unfold bodyUpdate; split_ifs <;> rfl

@[simp] lemma bodyUpdate_shape (b : PhysicsBody) (dt : ℝ) :
    (bodyUpdate b dt).shape_type = b.shape_type := by
  unfold bodyUpdate; split_ifs <;> rfl

@[simp] lemma bodyUpdate_restitution (b : PhysicsBody) (dt : ℝ) :
    (bodyUpdate b dt).restitution = b.restitution := by
  unfold bodyUpdate; split_ifs <;> rfl

lemma collisionPhase_singleton (x : PhysicsBody) : collisionPhase [x] = [x] := rfl

/-! ### C4: worked single-body gravity scenario -/

/-- Claim C4: one `update(dt=0.1)` on the worked scenario yields velocity
`(0, 9.8)` and position `(100, 100.98)` exactly, with `in_collision = false`
and the boundary clamp leaving the integrated body untouched. -/
theorem C4_worked_scenario :
    ((update c4engine 0.1).bodies.getD 0 default).velocity = (0, 9.8) ∧
    ((update c4engine 0.1).bodies.getD 0 default).position = (100, 100.98) ∧
    ((update c4engine 0.1).bodies.getD 0 default).in_collision = false ∧
    clampBody c4engine.bounds
        (bodyUpdate (apply_force c4body (0 * c4body.mass, 98 * c4body.mass)) 0.1) =
      bodyUpdate (apply_force c4body (0 * c4body.mass, 98 * c4body.mass)) 0.1 := by
  norm_num [update, c4engine, c4body, apply_force, bodyUpdate, clampBody,
    collisionPhase_singleton, copysign, List.getD, abs_of_nonneg]

/-! ### C1: fixed-body invariance (violated by the boundary clamp) -/

/-- Claim C1 fails on the code: the boundary-clamp block of
`PhysicsEngine.update` has no `fixed` guard, so a fixed circle whose extent
crosses `max_y` is moved.  At the failing input (fixed circle of radius 20 at
`(100, 590)`, bounds `(0,0,800,600)`), one `update(dt=0.1)` relocates the
body to `(100, 580)`, contradicting bit-identical position invariance. -/
theorem C1_boundary_clamp_moves_fixed_body :
    ((update c1engine 0.1).bodies.getD 0 default).position = (100, 580) ∧
    c1body.position = (100, 590) ∧
    ((update c1engine 0.1).bodies.getD 0 default).position ≠ c1body.position := by
  norm_num [update, c1engine, c1body, apply_force, bodyUpdate, clampBody,
    collisionPhase_singleton, copysign, List.getD, abs_of_nonneg, Prod.ext_iff]

/-! ### C5: boundary bounce at the bottom plane -/

/-- Claim C5 as stated is false: a circle of radius 400 in the
`(0,0,800,600)` world crosses `max_y - r` in one step, but after the bottom
clamp the top clamp also fires (`max_y - 2r < min_y`), leaving the body at
`y = min_y + r = 400`, not `max_y - r = 200`. -/
theorem C5_counterexample :
    (bodyUpdate (apply_force c5body (0 * c5body.mass, 0 * c5body.mass)) 1).position.2 +
        c5body.radius > 600 ∧
    (bodyUpdate (apply_force c5body (0 * c5body.mass, 0 * c5body.mass)) 1).velocity.2 > 0 ∧
    ((update c5engine 1).bodies.getD 0 default).position.2 = 400 ∧
    (400 : ℝ) ≠ 600 - c5body.radius := by
  norm_num [update, c5engine, c5body, apply_force, bodyUpdate, clampBody,
    collisionPhase_singleton, copysign, List.getD, abs_of_nonneg]

/-- Claim C5, amended: provided the world is at least `2r` tall
(`min_y ≤ max_y - 2r`), a circle body whose integrated position crosses
`max_y - r` within one single-body `update` step ends the step with
`position.y = max_y - r` and `velocity.y` equal to its pre-clamp value
negated and scaled by the body's restitution. -/
lemma clampBody_bottom_bounce (mnx mny mxx mxy : ℝ) (c : PhysicsBody)
    (hs : c.shape_type = "circle") (hcross : c.position.2 + c.radius > mxy)
    (hfit : mny ≤ mxy - 2 * c.radius) :
    (clampBody (mnx, mny, mxx, mxy) c).position.2 = mxy - c.radius ∧
    (clampBody (mnx, mny, mxx, mxy) c).velocity.2 = -c.velocity.2 * c.restitution := by
  unfold clampBody
  rw [if_pos hs]
  dsimp only
  rw [if_pos hcross]
  dsimp only
  rw [if_neg (show ¬ (mxy - c.radius - c.radius < mny) by push_neg; linarith)]
  split_ifs <;> simp

theorem C5_amended_boundary_bounce (mnx mny mxx mxy : ℝ) (g : Vec2) (dt : ℝ)
    (b : PhysicsBody) (hs : b.shape_type = "circle")
    (hfit : mny ≤ mxy - 2 * b.radius)
    (hcross : (bodyUpdate (if b.fixed then b
        else apply_force b (g.1 * b.mass, g.2 * b.mass)) dt).position.2 + b.radius > mxy) :
    ((update ⟨[b], g, (mnx, mny, mxx, mxy)⟩ dt).bodies.getD 0 default).position.2 =
        mxy - b.radius ∧
    ((update ⟨[b], g, (mnx, mny, mxx, mxy)⟩ dt).bodies.getD 0 default).velocity.2 =
      -(bodyUpdate (if b.fixed then b
          else apply_force b (g.1 * b.mass, g.2 * b.mass)) dt).velocity.2 * b.restitution := by
  simp only [update, List.map_cons, List.map_nil, collisionPhase_singleton, List.getD,
    List.get?_eq_getElem?, List.getElem?_cons_zero, Option.getD_some]
  set bi := bodyUpdate (if b.fixed then b
    else apply_force b (g.1 * b.mass, g.2 * b.mass)) dt with hbi
  have hrad : bi.radius = b.radius := by
    rw [hbi]; split_ifs <;> simp
  have hshape : bi.shape_type = "circle" := by
    rw [hbi]; split_ifs <;> simp [hs]
  have hrest : bi.restitution = b.restitution := by
    rw [hbi]; split_ifs <;> simp
  have h := clampBody_bottom_bounce mnx mny mxx mxy bi hshape
    (by rw [hrad]; exact hcross) (by rw [hrad]; exact hfit)
  rw [hrad, hrest] at h
  exact h

/-- Witness for the amended C5 at a concrete bouncing circle. -/
theorem C5_amended_boundary_bounce_witness :
    ((update ⟨[w5body], (0, 0), (0, 0, 800, 600)⟩ 1).bodies.getD 0 default).position.2 =
        600 - w5body.radius ∧
    ((update ⟨[w5body], (0, 0), (0, 0, 800, 600)⟩ 1).bodies.getD 0 default).velocity.2 =
      -(bodyUpdate (if w5body.fixed then w5body
          else apply_force w5body (0 * w5body.mass, 0 * w5body.mass)) 1).velocity.2 *
        w5body.restitution :=
  C5_amended_boundary_bounce 0 0 800 600 (0, 0) 1 w5body rfl (by norm_num [w5body])
    (by norm_num [w5body, bodyUpdate, apply_force, copysign, abs_of_nonneg])

/-! ### C2: spring scenario -/

lemma sqrt40000 : Real.sqrt (40000 : ℝ) = 200 := by
  rw [show (40000 : ℝ) = 200 ^ 2 by norm_num]
  exact Real.sqrt_sq (by norm_num)

/-- Claim C2 is false at its own scenario: the spring force applied to each
body has magnitude `stiffness * (distance - restLength) = 0.5 * 100 = 50`,
not 25. -/
lemma c2_lookup_a : lookupBody c2engine "a" = some c2a := rfl

lemma c2_lookup_b : lookupBody c2engine "b" = some c2b := rfl

lemma c2_spring_effect :
    apply_spring_force c2spring c2engine =
      setBody (setBody c2engine "a" (apply_force c2a (50, 0)))
        "b" (apply_force c2b (-50, -0)) := by
  unfold apply_spring_force
  have ha : c2spring.body_a_id = "a" := rfl
  have hb : c2spring.body_b_id = "b" := rfl
  rw [ha, hb, c2_lookup_a, c2_lookup_b]
  have hd : Real.sqrt ((c2b.position.1 - c2a.position.1) * (c2b.position.1 - c2a.position.1) +
      (c2b.position.2 - c2a.position.2) * (c2b.position.2 - c2a.position.2)) = 200 := by
    norm_num [c2a, c2b, sqrt40000]
  dsimp only
  rw [hd]
  rw [if_neg (by norm_num)]
  norm_num [c2a, c2b, c2spring]

theorem C2_counterexample :
    create_spring c2engine "a" "b" 0.5 100 0 = some c2spring ∧
    ((apply_spring_force c2spring c2engine).bodies.getD 0 default).forces = (50, 0) ∧
    Real.sqrt ((50 : ℝ) ^ 2 + 0 ^ 2) = 50 ∧ (50 : ℝ) ≠ 25 := by
  refine ⟨rfl, ?_, ?_, by norm_num⟩
  · rw [c2_spring_effect]
    simp [setBody, apply_force, c2engine, c2a, c2b, List.getD]
  · rw [show ((50 : ℝ) ^ 2 + 0 ^ 2) = 50 ^ 2 by norm_num]
    exact Real.sqrt_sq (by norm_num)

/-- Claim C2, amended: in the given scenario one invocation of the spring
operator applies a force of magnitude 50 (displacement 100 × stiffness 0.5)
to each body, directed toward the other along the x-axis. -/
theorem C2_amended_spring_force :
    create_spring c2engine "a" "b" 0.5 100 0 = some c2spring ∧
    ((apply_spring_force c2spring c2engine).bodies.getD 0 default).forces = (50, 0) ∧
    ((apply_spring_force c2spring c2engine).bodies.getD 1 default).forces = (-50, 0) ∧
    Real.sqrt ((50 : ℝ) ^ 2 + 0 ^ 2) = 50 := by
  refine ⟨rfl, ?_, ?_, ?_⟩
  · rw [c2_spring_effect]
    simp [setBody, apply_force, c2engine, c2a, c2b, List.getD]
  · rw [c2_spring_effect]
    simp [setBody, apply_force, c2engine, c2a, c2b, List.getD]
  · rw [show ((50 : ℝ) ^ 2 + 0 ^ 2) = 50 ^ 2 by norm_num]
    exact Real.sqrt_sq (by norm_num)

/-! ### C7: explosion force falloff -/

lemma explosionBody_in_radius (center : Vec2) (M R : ℝ) (b : PhysicsBody)
    (hb : b.fixed = false) (h : explosionDist center b < R) :
    explosionBody center M R b =
      apply_force b ((explosionDirVec center b).1 * (M * (1 - explosionDist center b / R)),
        (explosionDirVec center b).2 * (M * (1 - explosionDist center b / R))) := by
  have h' := h
  simp only [explosionDist] at h'
  simp only [explosionBody, explosionDirVec, explosionDist, hb, Bool.false_eq_true, if_false]
  rw [if_pos h']

lemma explosionBody_out_of_radius (center : Vec2) (M R : ℝ) (b : PhysicsBody)
    (h : ¬ explosionDist center b < R) :
    explosionBody center M R b = b := by
  simp only [explosionDist] at h
  simp only [explosionBody]
  split_ifs <;> rfl

lemma explosion_magnitude (center : Vec2) (M R : ℝ) (b : PhysicsBody)
    (hM : 0 ≤ M) (h : explosionDist center b < R) :
    Real.sqrt (((explosionDirVec center b).1 * (M * (1 - explosionDist center b / R))) ^ 2 +
        ((explosionDirVec center b).2 * (M * (1 - explosionDist center b / R))) ^ 2) =
      M * (1 - explosionDist center b / R) := by
  have hd0 : 0 ≤ explosionDist center b := Real.sqrt_nonneg _
  have hR : 0 < R := lt_of_le_of_lt hd0 h
  have hmag : 0 ≤ M * (1 - explosionDist center b / R) := by
    apply mul_nonneg hM
    have hlt : explosionDist center b / R < 1 := (div_lt_one hR).mpr h
    linarith
  have hunit : (explosionDirVec center b).1 ^ 2 + (explosionDirVec center b).2 ^ 2 = 1 := by
    unfold explosionDirVec
    split_ifs with hpos
    · have hsq : explosionDist center b * explosionDist center b =
          (b.position.1 - center.1) * (b.position.1 - center.1) +
            (b.position.2 - center.2) * (b.position.2 - center.2) := by
        simp only [explosionDist]
        exact Real.mul_self_sqrt (add_nonneg (mul_self_nonneg _) (mul_self_nonneg _))
      dsimp only
      have hne : explosionDist center b ≠ 0 := ne_of_gt hpos
      field_simp
      linear_combination (-1 : ℝ) * hsq
    · norm_num
  have hsum : ((explosionDirVec center b).1 * (M * (1 - explosionDist center b / R))) ^ 2 +
      ((explosionDirVec center b).2 * (M * (1 - explosionDist center b / R))) ^ 2 =
      (M * (1 - explosionDist center b / R)) ^ 2 := by
    linear_combination (M * (1 - explosionDist center b / R)) ^ 2 * hunit
  rw [hsum]
  exact Real.sqrt_sq hmag

/-- Claim C7: `apply_explosion_force` maps `explosionBody` over the registry;
for every non-fixed body strictly inside the radius the applied force is the
unit away-from-center direction (straight up at the center) scaled by
`M * (1 - d/R)`, whose magnitude is exactly `M * (1 - d/R)`; bodies at
distance `≥ R` (in particular `= R`) receive no force; and the magnitude at
distance `R/2` is exactly half the magnitude at distance 0. -/
theorem C7_explosion_falloff (e : PhysicsEngine) (center : Vec2) (M R : ℝ) (hM : 0 ≤ M) :
    (apply_explosion_force e center M R).bodies = e.bodies.map (explosionBody center M R) ∧
    (∀ b : PhysicsBody, b.fixed = false → explosionDist center b < R →
      explosionBody center M R b =
        apply_force b ((explosionDirVec center b).1 * (M * (1 - explosionDist center b / R)),
          (explosionDirVec center b).2 * (M * (1 - explosionDist center b / R))) ∧
      Real.sqrt (((explosionDirVec center b).1 * (M * (1 - explosionDist center b / R))) ^ 2 +
          ((explosionDirVec center b).2 * (M * (1 - explosionDist center b / R))) ^ 2) =
        M * (1 - explosionDist center b / R) ∧
      (explosionDist center b = 0 → explosionDirVec center b = (0, -1))) ∧
    (∀ b : PhysicsBody, ¬ explosionDist center b < R → explosionBody center M R b = b) ∧
    (0 < R → M * (1 - (R / 2) / R) = M * (1 - 0 / R) / 2) := by
  refine ⟨rfl, ?_, ?_, ?_⟩
  · intro b hb h
    refine ⟨explosionBody_in_radius center M R b hb h,
      explosion_magnitude center M R b hM h, ?_⟩
    intro h0
    unfold explosionDirVec
    rw [if_neg (by rw [h0]; exact lt_irrefl 0)]
  · intro b h
    exact explosionBody_out_of_radius center M R b h
  · intro hR
    have hR0 : R ≠ 0 := ne_of_gt hR
    field_simp
    ring

/-- Witness for C7 at a concrete engine and explosion. -/
theorem C7_explosion_falloff_witness :
    (apply_explosion_force c7engine (0, 0) 100 200).bodies =
        c7engine.bodies.map (explosionBody (0, 0) 100 200) ∧
    (∀ b : PhysicsBody, b.fixed = false → explosionDist (0, 0) b < 200 →
      explosionBody (0, 0) 100 200 b =
        apply_force b ((explosionDirVec (0, 0) b).1 * (100 * (1 - explosionDist (0, 0) b / 200)),
          (explosionDirVec (0, 0) b).2 * (100 * (1 - explosionDist (0, 0) b / 200))) ∧
      Real.sqrt (((explosionDirVec (0, 0) b).1 * (100 * (1 - explosionDist (0, 0) b / 200))) ^ 2 +
          ((explosionDirVec (0, 0) b).2 * (100 * (1 - explosionDist (0, 0) b / 200))) ^ 2) =
        100 * (1 - explosionDist (0, 0) b / 200) ∧
      (explosionDist (0, 0) b = 0 → explosionDirVec (0, 0) b = (0, -1))) ∧
    (∀ b : PhysicsBody, ¬ explosionDist (0, 0) b < 200 → explosionBody (0, 0) 100 200 b = b) ∧
    ((0 : ℝ) < 200 → (100 : ℝ) * (1 - (200 / 2) / 200) = 100 * (1 - 0 / 200) / 2) :=
  C7_explosion_falloff c7engine (0, 0) 100 200 (by norm_num)

/-! ### C8: spring creation and missing-body lookup -/

/-- Claim C8 is false as stated: with an empty registry, `create_spring`
returns `None` rather than an operator. -/
theorem C8_counterexample : create_spring c8engine "x" "y" 1 1 1 = none := rfl

/-- Claim C8, amended: `create_spring` returns an operator exactly when both
ids are registered at creation time (otherwise `None`); invoking a returned
operator when either body is missing from the current registry is a silent
no-op. -/
theorem C8_amended_spring_behavior (e : PhysicsEngine) (ida idb : String) (s r d : ℝ) :
    ((create_spring e ida idb s r d).isSome ↔
      (lookupBody e ida).isSome ∧ (lookupBody e idb).isSome) ∧
    (∀ sp : SpringOp,
      lookupBody e sp.body_a_id = none ∨ lookupBody e sp.body_b_id = none →
      apply_spring_force sp e = e) := by
  constructor
  · unfold create_spring
    split_ifs with h
    · rcases h with h | h <;>
        simp [Option.isNone_iff_eq_none.mp h]
    · push_neg at h
      obtain ⟨h1, h2⟩ := h
      simp [Option.isSome_iff_ne_none, Option.isNone_iff_eq_none] at h1 h2 ⊢
      exact ⟨h1, h2⟩
  · intro sp hsp
    unfold apply_spring_force
    rcases hsp with h | h
    · rw [h]
    · rw [h]
      cases lookupBody e sp.body_a_id <;> rfl

/-- Witness for C8 at an empty registry: invoking a spring operator whose
operands are absent leaves the engine unchanged. -/
theorem C8_amended_spring_behavior_witness :
    apply_spring_force c8spring c8engine = c8engine :=
  (C8_amended_spring_behavior c8engine "x" "y" 1 1 1).2 c8spring (Or.inl rfl)

end PhysicsSpec

end
